import Mathlib

/-!
Verification of the DASH protection-metadata extraction and related logic of
`unshackle/services/BRASIL_PARALELO/__init__.py` (class `BRASIL_PARALELO`).

The extraction step of `get_tracks` (source lines 178-220) parses a DASH MPD
manifest with Python's `xml.etree.ElementTree` (ET) and then scans the element
tree for a key identifier (KID) and a Widevine PSSH blob.  We embed the parsed
element tree and the scanning loops faithfully, and separately record the
relevant contract of ET's parser (namespace expansion of element and attribute
names), which was checked against CPython's implementation:

* ET expands every prefixed element or attribute name `p:local` (with `xmlns:p`
  bound to `uri`) to the single string `{uri}local`; an unprefixed name is kept
  verbatim and therefore contains no colon.  A document using an unbound prefix
  fails to parse (`ParseError: unbound prefix`).  Consequently no parsed tree
  ever carries an attribute whose key is literally `cenc:default_KID`.
* `Element.get(key)` is a plain dictionary lookup of the literal key; it takes
  no namespace map and performs no prefix resolution.
* `find(path, ns)` and `findall(path, ns)` do resolve prefixes through the
  supplied namespace map; `find` with a plain tag path inspects direct children
  only, and `findall(".//tag[@a='v']")` returns all proper descendants of the
  root that match, in document (preorder) order.

In strings below, a literal brace is written with the escapes `\x7b` and `\x7d`.
-/

namespace BrasilParalelo

/-- A parsed XML element as produced by `xml.etree.ElementTree`: a tag, an
attribute dictionary (association list with distinct keys), optional text
content, and the list of child elements in document order. -/
inductive Elem : Type where
  | mk (tag : String) (attrib : List (String × String)) (text : Option String)
      (children : List Elem)

/-- The tag of an element. -/
def Elem.tag : Elem → String
  | .mk t _ _ _ => t

/-- The attribute dictionary of an element. -/
def Elem.attrib : Elem → List (String × String)
  | .mk _ a _ _ => a

/-- The text content of an element (`None` in Python when absent). -/
def Elem.text : Elem → Option String
  | .mk _ _ x _ => x

/-- The children of an element, in document order. -/
def Elem.children : Elem → List Elem
  | .mk _ _ _ c => c

/-- Python `Element.get(key)`: literal lookup of the key in the attribute
dictionary, with no namespace resolution. -/
def Elem.get (e : Elem) (key : String) : Option String :=
  e.attrib.lookup key

mutual

/-- All proper descendants of an element in document (preorder) order; this is
the set and order over which `findall(".//...")` matches. -/
def Elem.descendants : Elem → List Elem
  | .mk _ _ _ cs => descList cs

/-- Preorder flattening of a list of sibling subtrees. -/
def descList : List Elem → List Elem
  | [] => []
  | c :: cs => c :: (Elem.descendants c ++ descList cs)

end

/-- Python truthiness of an optional string: `None` and the empty string are
falsy, any other string is truthy. -/
def truthy : Option String → Bool
  | none => false
  | some s => s != ""

/-- Tag of a `ContentProtection` element after ET namespace expansion
(`xmlns` default namespace `urn:mpeg:dash:schema:mpd:2011`). -/
def dashCPTag : String := "\x7burn:mpeg:dash:schema:mpd:2011\x7dContentProtection"

/-- Tag of a `cenc:pssh` element after ET namespace expansion. -/
def cencPsshTag : String := "\x7burn:mpeg:cenc:2013\x7dpssh"

/-- The `schemeIdUri` attribute key (unprefixed, hence stored verbatim). -/
def schemeIdUriKey : String := "schemeIdUri"

/-- Scheme URI for generic MP4 protection, line 191 of the source. -/
def mp4ProtectionScheme : String := "urn:mpeg:dash:mp4protection:2011"

/-- Scheme URI for Widevine, line 199 of the source. -/
def widevineScheme : String := "urn:uuid:edef8ba9-79d6-4ace-a3c8-27dcd51d21ed"

/-- The literal attribute key the source passes to `cp.get` on line 193. -/
def kidAttrLiteral : String := "cenc:default_KID"

/-- The key under which a parsed manifest actually stores the
`cenc:default_KID` attribute after ET namespace expansion. -/
def cencDefaultKidKey : String := "\x7burn:mpeg:cenc:2013\x7ddefault_KID"

/-- Source line 191 / 199: `root.findall(".//dash:ContentProtection[@schemeIdUri='s']", ns)`:
all descendant `ContentProtection` elements whose `schemeIdUri` attribute equals
`scheme`, in document order. -/
def findallCP (root : Elem) (scheme : String) : List Elem :=
  root.descendants.filter (fun e => e.tag == dashCPTag && e.get schemeIdUriKey == some scheme)

/-- Source line 208: `root.findall(".//dash:ContentProtection", ns)`: all
descendant `ContentProtection` elements of any scheme, in document order. -/
def findallAnyCP (root : Elem) : List Elem :=
  root.descendants.filter (fun e => e.tag == dashCPTag)

/-- Source lines 201 / 210: `cp.find("cenc:pssh", ns)` followed by `.text`:
the text of the first direct child tagged `cenc:pssh`, if any. -/
def psshText (cp : Elem) : Option String :=
  (cp.children.find? (fun c => c.tag == cencPsshTag)).bind Elem.text

/-- The shape shared by the three scanning loops of lines 191-214: the loop
variable is reassigned to `f cp` on each iteration and the loop breaks as soon
as the value is truthy; on normal exit the variable keeps its last value. -/
def scanFirst (f : Elem → Option String) : Option String → List Elem → Option String
  | acc, [] => acc
  | _, cp :: rest =>
    let v := f cp
    if truthy v then v else scanFirst f v rest

/-- The KID loop of lines 191-196: scan the mp4protection matches, reading
the literal attribute key `cenc:default_KID` via `Element.get`. -/
def scanKid (acc : Option String) (cps : List Elem) : Option String :=
  scanFirst (fun cp => cp.get kidAttrLiteral) acc cps

/-- The two PSSH loops of lines 199-205 and 208-214: scan `ContentProtection`
elements, reading each one's first `cenc:pssh` child's text. -/
def scanPssh (acc : Option String) (cps : List Elem) : Option String :=
  scanFirst psshText acc cps

/-- The two failure modes of the extraction step: line 182 re-raises a
`ParseError` as a `ValueError` carrying the parse message; line 217 raises a
`ValueError` naming the manifest URL when KID or PSSH is missing. -/
inductive ExtractError : Type where
  | parseError (msg : String)
  | missingKidPssh (manifestUrl : String)
deriving DecidableEq

/-- The exception messages of lines 182 and 217. -/
def errorMessage : ExtractError → String
  | .parseError msg => "Falha ao parsear o manifest MPD XML: " ++ msg
  | .missingKidPssh url => "Não foi possível extrair kid ou pssh do manifest MPD: " ++ url

/-- The extraction step of `get_tracks` on an already-parsed tree, lines
188-220 of the source: initialise `kid` and `pssh` to `None`; run the KID loop;
if `kid` is truthy run the Widevine PSSH loop; if `kid` is truthy and `pssh`
still falsy run the fallback PSSH loop over all `ContentProtection` elements;
fail if either is falsy, otherwise yield the pair. -/
def extractKidPssh (manifestUrl : String) (root : Elem) :
    Except ExtractError (String × String) :=
  let kid := scanKid none (findallCP root mp4ProtectionScheme)
  let pssh : Option String := none
  let pssh := if truthy kid then scanPssh pssh (findallCP root widevineScheme) else pssh
  let pssh := if truthy kid && !truthy pssh then scanPssh pssh (findallAnyCP root) else pssh
  if !truthy kid || !truthy pssh then .error (.missingKidPssh manifestUrl)
  else .ok (kid.getD "", pssh.getD "")

/-- Lines 178-220 as a whole: `ET.fromstring` on the manifest text, with a
`ParseError` re-raised as a parse failure before any element search, then the
tree-level extraction.  The parser itself is external library code and is
passed as a parameter; its output contract is captured by `nsExpanded` below. -/
def extractFromManifest (parseXml : String → Except String Elem)
    (manifestUrl : String) (manifestText : String) :
    Except ExtractError (String × String) :=
  match parseXml manifestText with
  | .error msg => .error (.parseError msg)
  | .ok root => extractKidPssh manifestUrl root

/-- A name as ET's parser can produce it: either namespace-expanded (starting
with a brace) or unprefixed (containing no colon).  A prefixed name whose
prefix is unbound is a `ParseError`, so no third form exists. -/
def parsedName (s : String) : Bool :=
  s.data.head? == some '\x7b' || !(s.data.contains ':')

mutual

/-- Contract of ET parsing for attribute keys: in a parsed tree, every
attribute key of every element is a `parsedName`. -/
def Elem.nsExpanded : Elem → Bool
  | .mk _ attrib _ cs => attrib.all (fun kv => parsedName kv.1) && nsExpandedList cs

/-- The same contract over a list of sibling subtrees. -/
def nsExpandedList : List Elem → Bool
  | [] => true
  | c :: cs => Elem.nsExpanded c && nsExpandedList cs

end

/-- A scan whose every step is falsy stays falsy: the loop variable is only
ever reassigned to falsy values, so the value on loop exit is falsy. -/
theorem scanFirst_falsy (f : Elem → Option String) :
    ∀ (l : List Elem) (acc : Option String), truthy acc = false →
      (∀ cp ∈ l, truthy (f cp) = false) → truthy (scanFirst f acc l) = false
  | [], acc, hacc, _ => by simpa [scanFirst] using hacc
  | cp :: rest, acc, hacc, h => by
      have hcp : truthy (f cp) = false := h cp (by simp)
      have hrest := scanFirst_falsy f rest (f cp) hcp
        (fun x hx => h x (List.mem_cons_of_mem _ hx))
      simpa [scanFirst, hcp] using hrest

/-- A scan whose every step yields `none` returns `none`. -/
theorem scanFirst_none (f : Elem → Option String) :
    ∀ (l : List Elem), (∀ cp ∈ l, f cp = none) → scanFirst f none l = none
  | [], _ => rfl
  | cp :: rest, h => by
      have hcp : f cp = none := h cp (by simp)
      have hrest := scanFirst_none f rest (fun x hx => h x (List.mem_cons_of_mem _ hx))
      simpa [scanFirst, hcp, truthy] using hrest

/-- When `find?` locates the first element whose scanned value is truthy, the
loop breaks there and returns exactly that value, whatever the accumulator. -/
theorem scanFirst_eq_of_find? (f : Elem → Option String) :
    ∀ (l : List Elem) (acc : Option String) (cp0 : Elem),
      l.find? (fun cp => truthy (f cp)) = some cp0 →
      scanFirst f acc l = f cp0
  | [], _, _, h => by simp at h
  | cp :: rest, acc, cp0, h => by
      rw [List.find?_cons] at h
      by_cases hcp : truthy (f cp) = true
      · simp only [hcp, if_true] at h
        obtain rfl : cp = cp0 := by simpa using h
        simp [scanFirst, hcp]
      · have hcp' : truthy (f cp) = false := by simpa using hcp
        simp only [hcp', Bool.false_eq_true, if_false] at h
        have hrest := scanFirst_eq_of_find? f rest (f cp) cp0 h
        simpa [scanFirst, hcp'] using hrest

/-- Membership in a sibling list implies membership in its preorder flattening. -/
theorem mem_descList_of_mem : ∀ (l : List Elem) (e : Elem), e ∈ l → e ∈ descList l
  | [], e, h => absurd h (List.not_mem_nil e)
  | c :: cs, e, h => by
      rw [descList]
      rcases List.mem_cons.mp h with rfl | h
      · exact List.mem_cons_self _ _
      · exact List.mem_cons_of_mem _ (List.mem_append_right _ (mem_descList_of_mem cs e h))

/-- The preorder flattening is closed under taking children: a child of a
collected element is itself collected. -/
theorem descList_closed : ∀ (l : List Elem) (e c : Elem),
    e ∈ descList l → c ∈ e.children → c ∈ descList l
  | [], e, c, he, _ => by rw [descList] at he; exact absurd he (List.not_mem_nil e)
  | .mk t a x cs :: rest, e, c, he, hc => by
      rw [descList] at he ⊢
      rcases List.mem_cons.mp he with rfl | he
      · have hdc : c ∈ descList cs := mem_descList_of_mem cs c hc
        exact List.mem_cons_of_mem _
          (List.mem_append_left _ (by simpa [Elem.descendants] using hdc))
      · rcases List.mem_append.mp he with he | he
        · have he' : e ∈ descList cs := by simpa [Elem.descendants] using he
          have hdc := descList_closed cs e c he' hc
          exact List.mem_cons_of_mem _ (List.mem_append_left _
            (by simpa [Elem.descendants] using hdc))
        · exact List.mem_cons_of_mem _
            (List.mem_append_right _ (descList_closed rest e c he hc))
termination_by l => sizeOf l

/-- Descendants of an element are closed under taking children. -/
theorem descendants_closed (root e c : Elem)
    (he : e ∈ root.descendants) (hc : c ∈ e.children) : c ∈ root.descendants := by
  cases root with
  | mk t a x cs =>
      rw [Elem.descendants] at he ⊢
      exact descList_closed cs e c he hc

/-- Every element collected by the preorder flattening of a parser-expanded
sibling list is itself parser-expanded. -/
theorem nsExpandedList_descList : ∀ (l : List Elem),
    nsExpandedList l = true → ∀ e ∈ descList l, Elem.nsExpanded e = true
  | [], _, e, he => by rw [descList] at he; exact absurd he (List.not_mem_nil e)
  | c :: cs, h, e, he => by
      rw [nsExpandedList] at h
      simp only [Bool.and_eq_true] at h
      obtain ⟨hc, hcs⟩ := h
      rw [descList] at he
      rcases List.mem_cons.mp he with rfl | he
      · exact hc
      · rcases List.mem_append.mp he with he | he
        · cases c with
          | mk t a x cs' =>
              rw [Elem.nsExpanded] at hc
              simp only [Bool.and_eq_true] at hc
              obtain ⟨_, hcs'⟩ := hc
              have he' : e ∈ descList cs' := by simpa [Elem.descendants] using he
              exact nsExpandedList_descList cs' hcs' e he'
        · exact nsExpandedList_descList cs hcs e he
termination_by l => sizeOf l

/-- Parser-expandedness propagates from the root to all its descendants. -/
theorem descendants_nsExpanded (root : Elem) (h : root.nsExpanded = true) :
    ∀ e ∈ root.descendants, Elem.nsExpanded e = true := by
  cases root with
  | mk t a x cs =>
      rw [Elem.nsExpanded] at h
      simp only [Bool.and_eq_true] at h
      obtain ⟨_, hcs⟩ := h
      intro e he
      rw [Elem.descendants] at he
      exact nsExpandedList_descList cs hcs e he

/-- The literal key `cenc:default_KID` is not a name ET's parser can produce:
it neither starts with a brace nor is colon-free. -/
theorem kidAttrLiteral_not_parsedName : parsedName kidAttrLiteral = false := by decide

/-- Looking up the literal key `cenc:default_KID` in an attribute dictionary
whose keys are all parser-produced names finds nothing. -/
theorem lookup_kid_none : ∀ (l : List (String × String)),
    l.all (fun kv => parsedName kv.1) = true → l.lookup kidAttrLiteral = none
  | [], _ => rfl
  | (k, v) :: rest, h => by
      rw [List.all_cons] at h
      simp only [Bool.and_eq_true] at h
      obtain ⟨hk, hrest⟩ := h
      have hne : (kidAttrLiteral == k) = false := by
        rcases hbe : kidAttrLiteral == k with _ | _
        · rfl
        · exact absurd (eq_of_beq hbe ▸ hk) (by simp [kidAttrLiteral_not_parsedName])
      rw [List.lookup, hne]
      exact lookup_kid_none rest hrest

/-- On any tree the parser can actually produce, the KID loop finds nothing:
`Element.get("cenc:default_KID")` is a literal lookup that can never hit a
namespace-expanded attribute key. -/
theorem scanKid_none_of_nsExpanded (root : Elem) (h : root.nsExpanded = true) :
    scanKid none (findallCP root mp4ProtectionScheme) = none := by
  apply scanFirst_none
  intro cp hcp
  have hdesc : cp ∈ root.descendants := List.mem_of_mem_filter hcp
  have hexp := descendants_nsExpanded root h cp hdesc
  cases cp with
  | mk t a x cs =>
      rw [Elem.nsExpanded] at hexp
      simp only [Bool.and_eq_true] at hexp
      obtain ⟨hattr, _⟩ := hexp
      exact lookup_kid_none a hattr

/-- On any tree the parser can actually produce, the extraction step of
`get_tracks` raises the missing-kid-or-pssh `ValueError`: the KID is never
found, so the guard on line 216 always fires. -/
theorem extract_fails_on_parsed (url : String) (root : Elem)
    (h : root.nsExpanded = true) :
    extractKidPssh url root = .error (.missingKidPssh url) := by
  have hkid := scanKid_none_of_nsExpanded root h
  simp [extractKidPssh, hkid, truthy]

/-- Tag of the `MPD` root element after ET namespace expansion. -/
def mpdTag : String := "\x7burn:mpeg:dash:schema:mpd:2011\x7dMPD"

/-- Tag of a `Period` element after ET namespace expansion. -/
def periodTag : String := "\x7burn:mpeg:dash:schema:mpd:2011\x7dPeriod"

/-- Tag of an `AdaptationSet` element after ET namespace expansion. -/
def adaptationSetTag : String := "\x7burn:mpeg:dash:schema:mpd:2011\x7dAdaptationSet"

/-- KID value of the C1 failing manifest. -/
def c1Kid : String := "11111111-2222-3333-4444-555555555555"

/-- PSSH value of the C1 failing manifest. -/
def c1Pssh : String := "AAAAWnBzc2g="

/-- The mp4protection `ContentProtection` of the C1 failing manifest, as ET
parses it: `cenc:default_KID` is stored under its namespace-expanded key. -/
def c1Mp4CP : Elem :=
  .mk dashCPTag [(schemeIdUriKey, mp4ProtectionScheme), (cencDefaultKidKey, c1Kid)] none []

/-- The Widevine `ContentProtection` of the C1 failing manifest, with a
non-empty `cenc:pssh` child. -/
def c1WvCP : Elem :=
  .mk dashCPTag [(schemeIdUriKey, widevineScheme)] none [.mk cencPsshTag [] (some c1Pssh) []]

/-- The parsed tree of the C1 failing manifest
`<MPD xmlns="urn:mpeg:dash:schema:mpd:2011" xmlns:cenc="urn:mpeg:cenc:2013"><Period><AdaptationSet><ContentProtection schemeIdUri="urn:mpeg:dash:mp4protection:2011" cenc:default_KID="11111111-2222-3333-4444-555555555555"/><ContentProtection schemeIdUri="urn:uuid:edef8ba9-79d6-4ace-a3c8-27dcd51d21ed"><cenc:pssh>AAAAWnBzc2g=</cenc:pssh></ContentProtection></AdaptationSet></Period></MPD>`,
checked against CPython ElementTree output. -/
def c1Root : Elem :=
  .mk mpdTag [] none [.mk periodTag [] none [.mk adaptationSetTag [] none [c1Mp4CP, c1WvCP]]]

/-- Manifest URL used for the C1 failing run. -/
def c1Url : String :=
  "https://stream.brasilparalelo.com.br/src1/d7137531-aab7-43f7-a15b-a64b0453b4ca/mpd/stream.mpd"

/-- Claim C1 (code bug): the parsed manifest `c1Root` is a parser-producible
tree whose first mp4protection `ContentProtection` carries a valid
`default_KID` (stored, as ET parses it, under the namespace-expanded key) and
whose Widevine `ContentProtection` has a `pssh` child with non-empty text, yet
the extraction step raises the missing-kid-or-pssh `ValueError` instead of
returning the pair: line 193 looks up the literal key `cenc:default_KID`,
which ET namespace expansion makes unmatchable in every parseable manifest. -/
theorem extraction_misses_namespaced_kid :
    c1Root.nsExpanded = true
    ∧ ((findallCP c1Root mp4ProtectionScheme).head?.bind
        (fun cp => cp.get cencDefaultKidKey)) = some c1Kid
    ∧ ((findallCP c1Root widevineScheme).head?.bind psshText) = some c1Pssh
    ∧ extractKidPssh c1Url c1Root = .error (.missingKidPssh c1Url) :=
  ⟨rfl, rfl, rfl, rfl⟩

/-- KID value of the C2 counterexample manifest. -/
def c2Kid : String := "22222222-2222-3333-4444-555555555555"

/-- The first (and only) generic-protection match of the C2 manifest, carrying
its `default_KID` under the namespace-expanded key. -/
def c2FirstCP : Elem :=
  .mk dashCPTag [(schemeIdUriKey, mp4ProtectionScheme), (cencDefaultKidKey, c2Kid)] none []

/-- The parsed tree of the C2 manifest. -/
def c2Root : Elem := .mk mpdTag [] none [c2FirstCP]

/-- Manifest URL used for the C2 failing run. -/
def c2Url : String :=
  "https://stream.brasilparalelo.com.br/src2/d7137531-aab7-43f7-a15b-a64b0453b4ca/mpd/stream.mpd"

/-- Claim C2 (code bug): in `c2Root` the first element matching the
generic-protection scheme URI carries the `default_KID` attribute (under its
namespace-expanded key, the only form ET can produce), yet the KID loop of
lines 191-196 leaves KID unset and extraction fails, because line 193 reads
the literal, never-matching key `cenc:default_KID`.  Independently of this
slip, that loop breaks only on a truthy value, so with a working key it would
take the attribute from a later matching element when the first match lacks
it, contrary to the claim's parenthetical. -/
theorem kid_not_taken_from_first_match :
    c2Root.nsExpanded = true
    ∧ ((findallCP c2Root mp4ProtectionScheme).head?.bind
        (fun cp => cp.get cencDefaultKidKey)) = some c2Kid
    ∧ scanKid none (findallCP c2Root mp4ProtectionScheme) = none
    ∧ extractKidPssh c2Url c2Root = .error (.missingKidPssh c2Url) :=
  ⟨rfl, rfl, rfl, rfl⟩

/-- Claim C4: when no `default_KID` is obtained from any generic-protection
element (every matching element's literal lookup is falsy), extraction raises
the missing-kid-or-pssh error.  Both PSSH loops of lines 199-214 sit under the
`if kid:` guards of lines 198 and 207, so no `pssh` search runs: the theorem
holds for every tree, whatever `pssh` elements it contains. -/
theorem missing_kid_fails_without_pssh_search (url : String) (root : Elem)
    (h : ∀ cp ∈ findallCP root mp4ProtectionScheme,
      truthy (cp.get kidAttrLiteral) = false) :
    extractKidPssh url root = .error (.missingKidPssh url) := by
  have hkid : truthy (scanKid none (findallCP root mp4ProtectionScheme)) = false :=
    scanFirst_falsy _ _ none rfl h
  simp [extractKidPssh, hkid]

/-- PSSH value present (but never searched for) in the C4 witness manifest. -/
def c4Pssh : String := "AAAAQnBzc2g="

/-- The C4 witness tree: a Widevine `ContentProtection` with a usable `pssh`
child but no mp4protection element at all. -/
def c4Root : Elem :=
  .mk mpdTag [] none [.mk dashCPTag [(schemeIdUriKey, widevineScheme)] none
    [.mk cencPsshTag [] (some c4Pssh) []]]

/-- Manifest URL used for the C4 witness run. -/
def c4Url : String :=
  "https://stream.brasilparalelo.com.br/src4/d7137531-aab7-43f7-a15b-a64b0453b4ca/mpd/stream.mpd"

/-- Witness for C4: on `c4Root` the extraction fails with the missing error
even though a Widevine `pssh` is present. -/
theorem missing_kid_fails_without_pssh_search_witness :
    extractKidPssh c4Url c4Root = .error (.missingKidPssh c4Url) := by
  apply missing_kid_fails_without_pssh_search
  intro cp hcp
  have hempty : findallCP c4Root mp4ProtectionScheme = [] := rfl
  rw [hempty] at hcp
  exact absurd hcp (List.not_mem_nil cp)

/-- Claim C3: if the KID loop found a KID and no Widevine-scoped
`ContentProtection` yields a non-empty `pssh` child text, the fallback loop of
lines 207-214 scans all `ContentProtection` elements of any scheme and the
extraction returns, with the KID, the text of the first one in document order
whose first `cenc:pssh` child has non-empty text. -/
theorem fallback_returns_first_any_scheme_pssh
    (url : String) (root : Elem) (k p : String) (cp0 : Elem)
    (hkid : scanKid none (findallCP root mp4ProtectionScheme) = some k)
    (hk : k ≠ "")
    (hwv : ∀ cp ∈ findallCP root widevineScheme, truthy (psshText cp) = false)
    (hfb : (findallAnyCP root).find? (fun cp => truthy (psshText cp)) = some cp0)
    (hp : psshText cp0 = some p) :
    extractKidPssh url root = .ok (k, p) := by
  have htk : truthy (some k) = true := by simp [truthy, hk]
  have hwv' : truthy (scanPssh none (findallCP root widevineScheme)) = false := by
    have := scanFirst_falsy psshText (findallCP root widevineScheme) none rfl hwv
    simpa [scanPssh] using this
  have hp0 : truthy (psshText cp0) = true := by simpa using List.find?_some hfb
  have hfb' : scanPssh (scanPssh none (findallCP root widevineScheme)) (findallAnyCP root)
      = psshText cp0 := by
    have := scanFirst_eq_of_find? psshText (findallAnyCP root)
      (scanPssh none (findallCP root widevineScheme)) cp0 hfb
    simpa [scanPssh] using this
  have htp : truthy (some p) = true := hp ▸ hp0
  simp [extractKidPssh, hkid, htk, hwv', hfb', hp, htp]

/-- KID value (under the literal key) of the C3 witness tree. -/
def c3Kid : String := "33333333-2222-3333-4444-555555555555"

/-- PSSH value of the C3 witness tree, carried by a non-Widevine element. -/
def c3Pssh : String := "AAAAQXBzc2g="

/-- A PlayReady scheme URI, used as the non-Widevine scheme of the C3 witness. -/
def playreadyScheme : String := "urn:uuid:9a04f079-9840-4286-ab92-e65be0885f95"

/-- The generic-protection element of the C3 witness tree; its KID sits under
the literal key the code looks up, so the KID loop finds it. -/
def c3Mp4CP : Elem :=
  .mk dashCPTag [(schemeIdUriKey, mp4ProtectionScheme), (kidAttrLiteral, c3Kid)] none []

/-- The non-Widevine `ContentProtection` of the C3 witness tree carrying the
only `pssh` child. -/
def c3FallbackCP : Elem :=
  .mk dashCPTag [(schemeIdUriKey, playreadyScheme)] none [.mk cencPsshTag [] (some c3Pssh) []]

/-- The C3 witness tree: KID found, no Widevine match, PlayReady `pssh`. -/
def c3Root : Elem := .mk mpdTag [] none [c3Mp4CP, c3FallbackCP]

/-- Manifest URL used for the C3 witness run. -/
def c3Url : String :=
  "https://stream.brasilparalelo.com.br/src3/d7137531-aab7-43f7-a15b-a64b0453b4ca/mpd/stream.mpd"

/-- Witness for C3: on `c3Root` the extraction returns the KID together with
the PlayReady-scoped PSSH found by the fallback loop. -/
theorem fallback_returns_first_any_scheme_pssh_witness :
    extractKidPssh c3Url c3Root = .ok (c3Kid, c3Pssh) := by
  refine fallback_returns_first_any_scheme_pssh c3Url c3Root c3Kid c3Pssh c3FallbackCP rfl
    (by decide) ?_ rfl rfl
  intro cp hcp
  have hempty : findallCP c3Root widevineScheme = [] := rfl
  rw [hempty] at hcp
  exact absurd hcp (List.not_mem_nil cp)

/-- Claim C5: when the KID loop found a KID but no `pssh` element anywhere in
the document has non-empty text, both PSSH loops leave `pssh` falsy and line
217 raises a `ValueError` whose message names the manifest URL. -/
theorem kid_without_pssh_fails_with_url_error
    (url : String) (root : Elem) (k : String)
    (hkid : scanKid none (findallCP root mp4ProtectionScheme) = some k)
    (hk : k ≠ "")
    (hnp : ∀ e ∈ root :: root.descendants, e.tag = cencPsshTag → truthy e.text = false) :
    extractKidPssh url root = .error (.missingKidPssh url)
    ∧ errorMessage (.missingKidPssh url)
        = "Não foi possível extrair kid ou pssh do manifest MPD: " ++ url := by
  have hcp : ∀ cp ∈ root.descendants, truthy (psshText cp) = false := by
    intro cp hcpd
    rw [psshText]
    cases hfind : cp.children.find? (fun c => c.tag == cencPsshTag) with
    | none => rfl
    | some c =>
        have hctag : (c.tag == cencPsshTag) = true := by simpa using List.find?_some hfind
        have hmem : c ∈ cp.children := List.mem_of_find?_eq_some hfind
        have hcdesc : c ∈ root.descendants := descendants_closed root cp c hcpd hmem
        have hfalsy := hnp c (List.mem_cons_of_mem _ hcdesc) (by simpa using hctag)
        simpa using hfalsy
  have htk : truthy (some k) = true := by simp [truthy, hk]
  have hwv : truthy (scanPssh none (findallCP root widevineScheme)) = false := by
    have := scanFirst_falsy psshText (findallCP root widevineScheme) none rfl
      (fun cp hcpw => hcp cp (List.mem_of_mem_filter hcpw))
    simpa [scanPssh] using this
  have hfb : truthy (scanPssh (scanPssh none (findallCP root widevineScheme))
      (findallAnyCP root)) = false := by
    have := scanFirst_falsy psshText (findallAnyCP root)
      (scanPssh none (findallCP root widevineScheme)) (by simpa [scanPssh] using hwv)
      (fun cp hcpa => hcp cp (List.mem_of_mem_filter hcpa))
    simpa [scanPssh] using this
  refine ⟨?_, rfl⟩
  simp [extractKidPssh, hkid, htk, hwv, hfb]

/-- KID value (under the literal key) of the C5 witness tree. -/
def c5Kid : String := "55555555-2222-3333-4444-555555555555"

/-- The single `ContentProtection` of the C5 witness tree: KID present, no
`pssh` element anywhere. -/
def c5CP : Elem :=
  .mk dashCPTag [(schemeIdUriKey, mp4ProtectionScheme), (kidAttrLiteral, c5Kid)] none []

/-- The C5 witness tree. -/
def c5Root : Elem := .mk mpdTag [] none [c5CP]

/-- Manifest URL used for the C5 witness run. -/
def c5Url : String :=
  "https://stream.brasilparalelo.com.br/src5/d7137531-aab7-43f7-a15b-a64b0453b4ca/mpd/stream.mpd"

/-- Witness for C5: on `c5Root` the extraction fails and the error message
carries the manifest URL. -/
theorem kid_without_pssh_fails_with_url_error_witness :
    extractKidPssh c5Url c5Root = .error (.missingKidPssh c5Url)
    ∧ errorMessage (.missingKidPssh c5Url)
        = "Não foi possível extrair kid ou pssh do manifest MPD: " ++ c5Url := by
  refine kid_without_pssh_fails_with_url_error c5Url c5Root c5Kid rfl (by decide) ?_
  intro e he htag
  have hlist : c5Root :: c5Root.descendants = [c5Root, c5CP] := rfl
  rw [hlist] at he
  rcases List.mem_cons.mp he with rfl | he
  · exact absurd htag (by decide)
  · rcases List.mem_cons.mp he with rfl | he
    · exact absurd htag (by decide)
    · exact absurd he (List.not_mem_nil e)

/-- Claim C6: whenever the parsing step fails, lines 178-182 surface a parse
failure (the `ParseError` re-raised as a `ValueError` carrying the parse
message) before any element search runs, and this failure is distinct from the
missing-kid-or-pssh error of line 217 for every manifest URL. -/
theorem parse_failure_yields_parse_error (parseXml : String → Except String Elem)
    (url manifestText msg : String) (h : parseXml manifestText = .error msg) :
    extractFromManifest parseXml url manifestText = .error (.parseError msg)
    ∧ ∀ u, ExtractError.parseError msg ≠ ExtractError.missingKidPssh u := by
  refine ⟨?_, fun u hne => ExtractError.noConfusion hne⟩
  simp [extractFromManifest, h]

/-- A malformed manifest text for the C6 witness. -/
def malformedText : String := "<MPD><ContentProtection></MPD>"

/-- The parse message ET produces on `malformedText`. -/
def parseErrMsg : String := "mismatched tag: line 1, column 26"

/-- A parse function failing the way ET fails on `malformedText`. -/
def rejectingParse : String → Except String Elem := fun _ => .error parseErrMsg

/-- Manifest URL used for the C6 witness run. -/
def c6Url : String :=
  "https://stream.brasilparalelo.com.br/src6/d7137531-aab7-43f7-a15b-a64b0453b4ca/mpd/stream.mpd"

/-- Witness for C6: a malformed text yields the parse error, not the
missing-field error. -/
theorem parse_failure_yields_parse_error_witness :
    extractFromManifest rejectingParse c6Url malformedText
      = .error (.parseError parseErrMsg)
    ∧ ∀ u, ExtractError.parseError parseErrMsg ≠ ExtractError.missingKidPssh u :=
  parse_failure_yields_parse_error rejectingParse c6Url malformedText parseErrMsg rfl

/-- Claim C7: extraction is deterministic and idempotent.  The extraction step
is modelled as a pure function of the parse function, the manifest URL and the
manifest text alone, because lines 178-220 of the source read no other state
and mutate none; two runs on the same input are therefore the same value. -/
theorem extraction_deterministic (parseXml : String → Except String Elem)
    (url manifestText : String) :
    extractFromManifest parseXml url manifestText
      = extractFromManifest parseXml url manifestText := rfl

/-- The special-cased title id of line 161 ("Episódio 1"). -/
def episode1TitleId : String := "62b0d862d12d4c0029f05602"

/-- The stream id of line 160, used for every other title id. -/
def defaultStreamId : String := "d7137531-aab7-43f7-a15b-a64b0453b4ca"

/-- The stream id of line 162, used only for `episode1TitleId`. -/
def episode1StreamId : String := "79f73236-4c3a-4998-8f5d-c14d33a91c9f"

/-- The literal host prefix of the manifest URL f-string on line 163. -/
def streamHost : String := "https://stream.brasilparalelo.com.br/"

/-- Lines 160-162: the stream id is the hardcoded default unless the title id
equals the one special-cased literal. -/
def streamIdFor (titleId : String) : String :=
  if titleId = episode1TitleId then episode1StreamId else defaultStreamId

/-- Line 163: the manifest URL built from the content id and the stream id. -/
def manifestUrlFor (contentId titleId : String) : String :=
  streamHost ++ contentId ++ "/" ++ streamIdFor titleId ++ "/mpd/stream.mpd"

/-- Claim C8: for every title id other than the literal `episode1TitleId`, the
stream id is the constant `defaultStreamId`; for that literal it is
`episode1StreamId`; and the manifest URL is always
`https://stream.brasilparalelo.com.br/<content_id>/<stream_id>/mpd/stream.mpd`. -/
theorem manifest_url_and_stream_id (contentId titleId : String) :
    (titleId ≠ episode1TitleId → streamIdFor titleId = defaultStreamId)
    ∧ streamIdFor episode1TitleId = episode1StreamId
    ∧ manifestUrlFor contentId titleId
        = streamHost ++ contentId ++ "/" ++ streamIdFor titleId ++ "/mpd/stream.mpd" := by
  refine ⟨fun hne => ?_, ?_, rfl⟩
  · simp [streamIdFor, hne]
  · simp [streamIdFor]

/-- A title id distinct from the special-cased literal, for the C8 witness. -/
def sampleTitleId : String := "0123456789abcdef01234567"

/-- A content id for the C8 witness. -/
def sampleContentId : String := "content-1234"

/-- Witness for C8 at a concrete non-special title id. -/
theorem manifest_url_and_stream_id_witness :
    streamIdFor sampleTitleId = defaultStreamId
    ∧ streamIdFor episode1TitleId = episode1StreamId
    ∧ manifestUrlFor sampleContentId sampleTitleId
        = streamHost ++ sampleContentId ++ "/" ++ streamIdFor sampleTitleId
          ++ "/mpd/stream.mpd" :=
  ⟨(manifest_url_and_stream_id sampleContentId sampleTitleId).1 (by decide),
   (manifest_url_and_stream_id sampleContentId sampleTitleId).2.1,
   (manifest_url_and_stream_id sampleContentId sampleTitleId).2.2⟩

/-- A chapter entry; the host framework's chapter shape, irrelevant here since
`get_chapters` never constructs one. -/
structure Chapter where
  name : String
  start : Nat

/-- Lines 276-282: `get_chapters` ignores its argument and returns the empty
list unconditionally; it performs no I/O and cannot raise. -/
def getChapters (_titleId : Option String) : List Chapter := []

/-- Claim C9: `get_chapters` returns the empty list for every `title_id`; it is
a total constant function in the embedding, so it never raises and never
returns a non-empty list. -/
theorem get_chapters_always_empty (titleId : Option String) :
    getChapters titleId = [] := rfl

/-- The fields of the GraphQL `media` object that `get_titles` reads (lines
90-116): `name`, `playlist.type.name`, `playlist.name`, `playlist.slug` and
`duration`; each chained `.get` yields `None` when absent. -/
structure MediaPayload where
  name : Option String
  typeName : Option String
  playlistName : Option String
  slug : Option String
  duration : Option Int

/-- A movie entry as built on lines 107-113: `id_=title_id`, `name=name`,
`year=None`, `data` holding the duration. -/
structure MovieEntry where
  id : String
  name : String
  year : Option Int
  duration : Option Int

/-- The two shapes `get_titles` can return: `Movies([movie])` on line 114 or
`Series(id, title, seasons=[...])` on line 116. -/
inductive TitlesResult : Type where
  | movies (entries : List MovieEntry)
  | series (id : String) (title : String) (seasonNames : List (Option String))

/-- Error message of lines 52-53 and 120-121. -/
def noTitleIdMsg : String := "Nenhum title_id fornecido."

/-- Error message of line 92. -/
def noMediaMsg : String := "Nenhum dado de mídia retornado pela API"

/-- Error message of line 96. -/
def noNameMsg : String := "Chave name não encontrada na resposta da API"

/-- Error message of line 102. -/
def noSlugMsg : String := "Chave playlist.slug não encontrada na resposta da API"

/-- The playlist type name that selects the movie branch on line 106. -/
def movieTypeName : String := "movie"

/-- The decision logic of `get_titles` (lines 50-116), from the point where the
GraphQL response has been decoded: resolve the title id (`title_id or
self.title_id`, failing when falsy), fail when `media`, `name` or
`playlist.slug` is falsy, then return `Movies` with exactly one `Movie` when
the movie flag is set or the playlist type name equals "movie", and `Series`
otherwise. -/
def getTitles (titleId selfTitleId : Option String) (isMovie : Bool)
    (media : Option MediaPayload) : Except String TitlesResult :=
  let t := if truthy titleId then titleId else selfTitleId
  if !truthy t then .error noTitleIdMsg
  else
    match media with
    | none => .error noMediaMsg
    | some m =>
      if !truthy m.name then .error noNameMsg
      else if !truthy m.slug then .error noSlugMsg
      else if isMovie || m.typeName == some movieTypeName then
        .ok (.movies [⟨t.getD "", m.name.getD "", none, m.duration⟩])
      else .ok (.series (t.getD "") (m.name.getD "") [m.playlistName])

/-- Claim C10: a successful `get_titles` run returns a `Movies` container with
exactly one `Movie` precisely when the movie flag was set at construction or
the playlist type name of the response equals "movie"; in every other
successful case it returns a `Series`. -/
theorem movies_iff_flag_or_type (titleId selfTitleId : Option String) (isMovie : Bool)
    (m : MediaPayload) (r : TitlesResult)
    (h : getTitles titleId selfTitleId isMovie (some m) = .ok r) :
    ((∃ mv, r = TitlesResult.movies [mv])
        ↔ (isMovie = true ∨ m.typeName = some movieTypeName))
    ∧ ((isMovie = false ∧ m.typeName ≠ some movieTypeName) →
        ∃ i n s, r = TitlesResult.series i n s) := by
  simp only [getTitles] at h
  generalize (if truthy titleId then titleId else selfTitleId) = t at h
  split at h
  · simp at h
  · split at h
    · simp at h
    · split at h
      · simp at h
      · split at h
        · rename_i hcond
          simp only [Bool.or_eq_true, beq_iff_eq] at hcond
          simp only [Except.ok.injEq] at h
          subst h
          refine ⟨⟨fun _ => hcond, fun _ => ⟨_, rfl⟩⟩, ?_⟩
          rintro ⟨hflag, htype⟩
          rcases hcond with hcond | hcond
          · exact absurd hcond (by simp [hflag])
          · exact absurd hcond htype
        · rename_i hcond
          simp only [Bool.or_eq_true, beq_iff_eq] at hcond
          simp only [Except.ok.injEq] at h
          subst h
          constructor
          · constructor
            · rintro ⟨mv, hmv⟩
              exact TitlesResult.noConfusion hmv
            · intro hor
              exact absurd hor hcond
          · intro _
            exact ⟨_, _, _, rfl⟩

/-- Title id for the C10 witness. -/
def c10TitleId : String := "64a0d862d12d4c0029f05777"

/-- Media name for the C10 witness. -/
def c10Name : String := "Entre Lobos"

/-- Playlist slug for the C10 witness. -/
def c10Slug : String := "entre-lobos"

/-- The decoded media payload of the C10 witness: playlist type "movie". -/
def c10Media : MediaPayload :=
  ⟨some c10Name, some movieTypeName, some c10Name, some c10Slug, none⟩

/-- The single movie entry the C10 witness run constructs. -/
def c10Movie : MovieEntry := ⟨c10TitleId, c10Name, none, none⟩

/-- Witness for C10: with the movie flag unset but playlist type "movie", the
run returns `Movies` with exactly one entry, and the characterisation holds. -/
theorem movies_iff_flag_or_type_witness :
    ((∃ mv, TitlesResult.movies [c10Movie] = TitlesResult.movies [mv])
        ↔ (false = true ∨ c10Media.typeName = some movieTypeName))
    ∧ ((false = false ∧ c10Media.typeName ≠ some movieTypeName) →
        ∃ i n s, TitlesResult.movies [c10Movie] = TitlesResult.series i n s) :=
  movies_iff_flag_or_type (some c10TitleId) none false c10Media
    (TitlesResult.movies [c10Movie]) rfl

end BrasilParalelo
